import Mathlib

/-!
Verification of the Lambda random-number handler (`src/index.js`).

The handler is:

  exports.handler = async (event) => {
    const maxValue = 100;
    const randomNumber = _.random(0, maxValue);
    const response = {
      statusCode: 200,
      body: JSON.stringify(`Random number: ${randomNumber}`),
    };
    return response;
  };

Shallow embedding choices:
* The only impure ingredient is `Math.random()` inside lodash's `_.random`;
  we expose it as an explicit draw `r : ℚ` with `0 ≤ r < 1`.
* `_.random(lower, upper)` with integer bounds is lodash's
  `lower + Math.floor(Math.random() * (upper - lower + 1))`.
* A JavaScript object literal is embedded as an association list from
  field names to `JsValue`s, so the set (and order) of attributes of the
  returned record is part of the model.
* `JSON.stringify` applied to a string follows ECMAScript `QuoteJSONString`
  (quote, escape `"` `\` and control characters); `JSON.parse` applied to a
  JSON string value is embedded by `JSON.parseString`.
* The event parameter is an arbitrary type: the source puts no constraint
  on it and never reads it.
-/

namespace LambdaRandom

/-- JavaScript values appearing in the handler's response object. -/
inductive JsValue where
  | num (n : ℤ)
  | str (s : String)
deriving DecidableEq, Repr

namespace Lodash

/-- lodash `_.random(lower, upper)` for integer bounds:
`lower + Math.floor(Math.random() * (upper - lower + 1))`, with the
`Math.random()` draw `r` (a number in `[0,1)`) made explicit. -/
def random (lower upper : ℤ) (r : ℚ) : ℤ :=
  lower + ⌊r * ((upper : ℚ) - (lower : ℚ) + 1)⌋

end Lodash

namespace JSON

/-- Hex digit characters, lowercase, as produced by `JSON.stringify`
unicode escapes. -/
def hexChar (n : Nat) : Char :=
  if n < 10 then Char.ofNat (48 + n) else Char.ofNat (87 + n)

/-- Four-hex-digit encoding of a code point below `0x10000`. -/
def hex4 (n : Nat) : List Char :=
  [hexChar (n / 4096 % 16), hexChar (n / 256 % 16), hexChar (n / 16 % 16),
   hexChar (n % 16)]

/-- ECMAScript `QuoteJSONString` escaping of one character: `"` and `\`
get a backslash, the named control characters use their short escapes,
other control characters use `\u00xx`, and everything else is copied. -/
def escapeChar (c : Char) : List Char :=
  if c = '"' then ['\\', '"']
  else if c = '\\' then ['\\', '\\']
  else if c = '\x08' then ['\\', 'b']
  else if c = '\x0c' then ['\\', 'f']
  else if c = '\n' then ['\\', 'n']
  else if c = '\r' then ['\\', 'r']
  else if c = '\t' then ['\\', 't']
  else if c.toNat < 32 then '\\' :: 'u' :: hex4 c.toNat
  else [c]

/-- Escape every character of a string body. -/
def escapeList : List Char → List Char
  | [] => []
  | c :: cs => escapeChar c ++ escapeList cs

/-- `JSON.stringify` applied to a string: a double quote, the escaped
characters, and a closing double quote. -/
def stringify (s : String) : String :=
  ⟨'"' :: (escapeList s.data ++ ['"'])⟩

/-- Numeric value of a hex digit, for decoding `\uXXXX` escapes. -/
def hexVal (c : Char) : Option Nat :=
  if 48 ≤ c.toNat ∧ c.toNat ≤ 57 then some (c.toNat - 48)
  else if 97 ≤ c.toNat ∧ c.toNat ≤ 102 then some (c.toNat - 87)
  else if 65 ≤ c.toNat ∧ c.toNat ≤ 70 then some (c.toNat - 55)
  else none

/-- The single-character JSON escapes accepted after a backslash. -/
def unescapeChar (e : Char) : Option Char :=
  if e = '"' then some '"'
  else if e = '\\' then some '\\'
  else if e = '/' then some '/'
  else if e = 'b' then some '\x08'
  else if e = 'f' then some '\x0c'
  else if e = 'n' then some '\n'
  else if e = 'r' then some '\r'
  else if e = 't' then some '\t'
  else none

mutual

/-- Decode the characters of a JSON string literal after the opening
quote: succeeds when a closing quote ends the input, every escape is
legal, and no raw control character occurs. -/
def parseBody : List Char → Option (List Char)
  | [] => none
  | c :: rest =>
    if c = '"' then (if rest = [] then some [] else none)
    else if c = '\\' then parseEscape rest
    else if c.toNat < 32 then none
    else (parseBody rest).map (fun l => c :: l)
termination_by l => l.length

/-- Decode one escape sequence (the characters after a backslash) and
continue with `parseBody`. -/
def parseEscape : List Char → Option (List Char)
  | [] => none
  | e :: rest =>
    if e = 'u' then
      match rest with
      | a :: b :: c :: d :: rest2 =>
        match hexVal a, hexVal b, hexVal c, hexVal d with
        | some ha, some hb, some hc, some hd =>
          (parseBody rest2).map
            (fun l => Char.ofNat (4096 * ha + 256 * hb + 16 * hc + hd) :: l)
        | _, _, _, _ => none
      | _ => none
    else
      match unescapeChar e with
      | some u => (parseBody rest).map (fun l => u :: l)
      | none => none
termination_by l => l.length

end

/-- `JSON.parse` applied to a serialized JSON string value: strip the
opening quote and decode the body up to the closing quote. -/
def parseString (s : String) : Option String :=
  match s.data with
  | [] => none
  | c :: rest => if c = '"' then (parseBody rest).map (fun l => ⟨l⟩) else none

end JSON

/-- The message string built by the template literal
`Random number: ${randomNumber}`. -/
def message (n : ℤ) : String :=
  "Random number: " ++ toString n

/-- The handler of `src/index.js`, with the `Math.random()` draw `r`
explicit and the response object literal embedded as an association
list of its fields. -/
def handler {α : Type} (event : α) (r : ℚ) : List (String × JsValue) :=
  let maxValue : ℤ := 100
  let randomNumber : ℤ := Lodash.random 0 maxValue r
  let response : List (String × JsValue) :=
    [("statusCode", JsValue.num 200),
     ("body", JsValue.str (JSON.stringify ("Random number: " ++ toString randomNumber)))]
  response

/-- The handler with an explicit external world state `w : σ` threaded
through: the source contains only pure bindings, so no statement touches
the world, which is returned unchanged alongside the response. -/
def handlerWorld {α σ : Type} (event : α) (r : ℚ) (w : σ) :
    List (String × JsValue) × σ :=
  let maxValue : ℤ := 100
  let randomNumber : ℤ := Lodash.random 0 maxValue r
  let response : List (String × JsValue) :=
    [("statusCode", JsValue.num 200),
     ("body", JsValue.str (JSON.stringify ("Random number: " ++ toString randomNumber)))]
  (response, w)

/-- A character that `JSON.stringify` copies verbatim: not a quote, not a
backslash, not a control character. -/
def plain (c : Char) : Bool :=
  c ≠ '"' && c ≠ '\\' && 32 ≤ c.toNat

lemma random_eq_floor (r : ℚ) : Lodash.random 0 100 r = ⌊r * 101⌋ := by
  simp only [Lodash.random]
  norm_num

lemma random_mem (r : ℚ) (h0 : 0 ≤ r) (h1 : r < 1) :
    0 ≤ Lodash.random 0 100 r ∧ Lodash.random 0 100 r ≤ 100 := by
  rw [random_eq_floor]
  constructor
  · exact Int.floor_nonneg.2 (by positivity)
  · have hlt : r * 101 < ((101 : ℤ) : ℚ) := by push_cast; nlinarith
    have := Int.floor_lt.2 hlt
    omega

lemma random_eq_iff (r : ℚ) (N : ℤ) :
    Lodash.random 0 100 r = N ↔ (N : ℚ) / 101 ≤ r ∧ r < ((N : ℚ) + 1) / 101 := by
  rw [random_eq_floor, Int.floor_eq_iff]
  have h101 : (0 : ℚ) < 101 := by norm_num
  constructor
  · rintro ⟨ha, hb⟩
    constructor
    · rw [div_le_iff₀ h101]; exact ha
    · rw [lt_div_iff₀ h101]; linarith
  · rintro ⟨ha, hb⟩
    constructor
    · rw [div_le_iff₀ h101] at ha; exact ha
    · rw [lt_div_iff₀ h101] at hb; linarith

lemma handler_lookup_statusCode {α : Type} (event : α) (r : ℚ) :
    List.lookup "statusCode" (handler event r) = some (JsValue.num 200) := rfl

lemma handler_lookup_body {α : Type} (event : α) (r : ℚ) :
    List.lookup "body" (handler event r) =
      some (JsValue.str (JSON.stringify (message (Lodash.random 0 100 r)))) := rfl

lemma plain_iff {c : Char} :
    plain c = true ↔ c ≠ '"' ∧ c ≠ '\\' ∧ 32 ≤ c.toNat := by
  simp [plain, and_assoc]

lemma escapeChar_of_plain {c : Char} (h : plain c = true) :
    JSON.escapeChar c = [c] := by
  obtain ⟨h1, h2, h3⟩ := plain_iff.1 h
  unfold JSON.escapeChar
  rw [if_neg h1, if_neg h2,
    if_neg (fun hc => absurd h3 (by rw [hc]; decide)),
    if_neg (fun hc => absurd h3 (by rw [hc]; decide)),
    if_neg (fun hc => absurd h3 (by rw [hc]; decide)),
    if_neg (fun hc => absurd h3 (by rw [hc]; decide)),
    if_neg (fun hc => absurd h3 (by rw [hc]; decide)),
    if_neg (by omega)]

lemma escapeList_of_plain : ∀ {l : List Char}, l.all plain = true →
    JSON.escapeList l = l
  | [], _ => rfl
  | c :: cs, h => by
    simp only [List.all_cons, Bool.and_eq_true] at h
    simp only [JSON.escapeList, escapeChar_of_plain h.1,
      escapeList_of_plain h.2, List.singleton_append]

lemma parseBody_plain_append : ∀ {l : List Char}, l.all plain = true →
    JSON.parseBody (l ++ ['"']) = some l
  | [], _ => by simp [JSON.parseBody]
  | c :: cs, h => by
    simp only [List.all_cons, Bool.and_eq_true] at h
    obtain ⟨h1, h2, h3⟩ := plain_iff.1 h.1
    rw [List.cons_append, JSON.parseBody, if_neg h1, if_neg h2,
      if_neg (by omega), parseBody_plain_append h.2]
    rfl

lemma parseString_stringify {s : String} (h : s.data.all plain = true) :
    JSON.parseString (JSON.stringify s) = some s := by
  obtain ⟨l⟩ := s
  rw [JSON.stringify, JSON.parseString]
  simp only [escapeList_of_plain h]
  rw [if_pos trivial, parseBody_plain_append h]
  rfl

set_option maxHeartbeats 1000000 in
lemma message_plain_nat :
    ∀ n : ℕ, n < 101 → ((message (n : ℤ)).data.all plain = true) := by
  decide

lemma message_plain {N : ℤ} (h0 : 0 ≤ N) (h1 : N ≤ 100) :
    (message N).data.all plain = true := by
  have hN : N = ((N.toNat : ℕ) : ℤ) := by omega
  rw [hN]
  exact message_plain_nat N.toNat (by omega)

/-- C1: for every invocation event and every random draw, the response
record returned by the handler has a statusCode attribute equal to 200. -/
theorem handler_statusCode_eq_200 {α : Type} (event : α) (r : ℚ) :
    List.lookup "statusCode" (handler event r) = some (JsValue.num 200) :=
  handler_lookup_statusCode event r

/-- C2: for every invocation, the random number `N` embedded in the
response body (the handler's body attribute is exactly the JSON
serialization of the message for `N = Lodash.random 0 100 r`) is an
integer with `0 ≤ N ≤ 100`. -/
theorem handler_number_in_range {α : Type} (event : α) (r : ℚ)
    (h0 : 0 ≤ r) (h1 : r < 1) :
    0 ≤ Lodash.random 0 100 r ∧ Lodash.random 0 100 r ≤ 100 ∧
    List.lookup "body" (handler event r) =
      some (JsValue.str (JSON.stringify (message (Lodash.random 0 100 r)))) :=
  ⟨(random_mem r h0 h1).1, (random_mem r h0 h1).2, handler_lookup_body event r⟩

/-- Witness for C2: the range theorem applied at the concrete draw `1/2`
and the empty event. -/
theorem handler_number_in_range_witness :
    0 ≤ Lodash.random 0 100 (1 / 2) ∧ Lodash.random 0 100 (1 / 2) ≤ 100 ∧
    List.lookup "body" (handler () (1 / 2)) =
      some (JsValue.str (JSON.stringify (message (Lodash.random 0 100 (1 / 2))))) :=
  handler_number_in_range () (1 / 2) (by norm_num) (by norm_num)

/-- C3: for every invocation (any event, in particular the empty record),
the body attribute is the JSON serialization of the string
`Random number: <N>` for some integer `N` in `[0, 100]`; it is a
JSON-quoted string (its first character is a double quote, so not a JSON
object), and JSON-decoding it yields exactly that message string. -/
theorem handler_body_decodes_to_message {α : Type} (event : α) (r : ℚ)
    (h0 : 0 ≤ r) (h1 : r < 1) :
    ∃ N : ℤ, 0 ≤ N ∧ N ≤ 100 ∧
      List.lookup "body" (handler event r) =
        some (JsValue.str (JSON.stringify (message N))) ∧
      JSON.parseString (JSON.stringify (message N)) = some (message N) ∧
      (JSON.stringify (message N)).data.head? = some '"' :=
  ⟨Lodash.random 0 100 r, (random_mem r h0 h1).1, (random_mem r h0 h1).2,
    handler_lookup_body event r,
    parseString_stringify
      (message_plain (random_mem r h0 h1).1 (random_mem r h0 h1).2),
    rfl⟩

/-- Witness for C3: the body-shape theorem applied at the empty event and
the concrete draw `0`. -/
theorem handler_body_decodes_to_message_witness :
    ∃ N : ℤ, 0 ≤ N ∧ N ≤ 100 ∧
      List.lookup "body" (handler () 0) =
        some (JsValue.str (JSON.stringify (message N))) ∧
      JSON.parseString (JSON.stringify (message N)) = some (message N) ∧
      (JSON.stringify (message N)).data.head? = some '"' :=
  handler_body_decodes_to_message () 0 (by norm_num) (by norm_num)

/-- C4: for every invocation with any event, the returned record has
exactly the two attributes statusCode and body, in this order, and no
others. -/
theorem handler_fields_exact {α : Type} (event : α) (r : ℚ) :
    (handler event r).map Prod.fst = ["statusCode", "body"] := rfl

/-- C5: the embedded handler is a total function: for every event and
every draw it returns a normal response record (statusCode 200 plus a
string body) and no error branch exists. -/
theorem handler_total_normal_response {α : Type} (event : α) (r : ℚ) :
    ∃ b : String, handler event r =
      [("statusCode", JsValue.num 200), ("body", JsValue.str b)] :=
  ⟨JSON.stringify ("Random number: " ++ toString (Lodash.random 0 100 r)), rfl⟩

/-- C6: the invocation event is unused: two invocations with arbitrary
events (even of different types) and the same random draw produce
identical response records. -/
theorem handler_ignores_event {α β : Type} (e1 : α) (e2 : β) (r : ℚ) :
    handler e1 r = handler e2 r := rfl

/-- C7: the generated integer is uniform over `[0, 100]`: the draws
mapped to a given `N` in `[0, 100]` are exactly the interval
`[N/101, (N+1)/101)` — the same length `1/101` for every `N`, so a
uniform draw induces a uniform integer; every `N` in `[0, 100]` is
attained by some draw in `[0, 1)` (no value structurally excluded), and
no draw in `[0, 1)` produces a value outside `[0, 100]`. -/
theorem random_uniform_range (N : ℤ) (h0 : 0 ≤ N) (h1 : N ≤ 100) :
    (∀ r : ℚ, Lodash.random 0 100 r = N ↔
      (N : ℚ) / 101 ≤ r ∧ r < ((N : ℚ) + 1) / 101) ∧
    (∃ r : ℚ, 0 ≤ r ∧ r < 1 ∧
      List.lookup "body" (handler () r) =
        some (JsValue.str (JSON.stringify (message N)))) ∧
    (∀ r : ℚ, 0 ≤ r → r < 1 →
      0 ≤ Lodash.random 0 100 r ∧ Lodash.random 0 100 r ≤ 100) := by
  refine ⟨fun r => random_eq_iff r N, ?_, fun r hr0 hr1 => random_mem r hr0 hr1⟩
  refine ⟨(N : ℚ) / 101, div_nonneg (by exact_mod_cast h0) (by norm_num), ?_, ?_⟩
  · rw [div_lt_one (by norm_num)]
    exact_mod_cast (by omega : N < 101)
  · rw [handler_lookup_body]
    have hval : Lodash.random 0 100 ((N : ℚ) / 101) = N :=
      (random_eq_iff _ _).2 ⟨le_refl _, by gcongr; linarith⟩
    rw [hval]

/-- Witness for C7: the uniformity theorem applied at the endpoint
`N = 100`. -/
theorem random_uniform_range_witness :
    (∀ r : ℚ, Lodash.random 0 100 r = 100 ↔
      ((100 : ℤ) : ℚ) / 101 ≤ r ∧ r < (((100 : ℤ) : ℚ) + 1) / 101) ∧
    (∃ r : ℚ, 0 ≤ r ∧ r < 1 ∧
      List.lookup "body" (handler () r) =
        some (JsValue.str (JSON.stringify (message 100)))) ∧
    (∀ r : ℚ, 0 ≤ r → r < 1 →
      0 ≤ Lodash.random 0 100 r ∧ Lodash.random 0 100 r ≤ 100) :=
  random_uniform_range 100 (by norm_num) (by norm_num)

/-- C8: the handler has no side effects: with an arbitrary external
world state threaded through the embedded statements, every invocation
returns the world unchanged, and its response is the same as the
stateless handler's. -/
theorem handler_no_side_effects {α σ : Type} (event : α) (r : ℚ) (w : σ) :
    (handlerWorld event r w).2 = w ∧ (handlerWorld event r w).1 = handler event r :=
  ⟨rfl, rfl⟩

/-- C9: JSON encoding of the message is lossless: for every integer `N`
in `[0, 100]` the message `Random number: <N>` contains no character
that JSON escaping alters, and decoding the encoded message returns
exactly the original message. -/
theorem message_json_roundtrip (N : ℤ) (h0 : 0 ≤ N) (h1 : N ≤ 100) :
    (message N).data.all plain = true ∧
    JSON.parseString (JSON.stringify (message N)) = some (message N) :=
  ⟨message_plain h0 h1, parseString_stringify (message_plain h0 h1)⟩

/-- Witness for C9: the round-trip theorem applied at `N = 37`. -/
theorem message_json_roundtrip_witness :
    (message 37).data.all plain = true ∧
    JSON.parseString (JSON.stringify (message 37)) = some (message 37) :=
  message_json_roundtrip 37 (by norm_num) (by norm_num)

/-- C10: the handler is deterministic given its random source: with the
same draw and the same event, two invocations (even from different
world states) produce identical response records, and the statusCode is
200 whatever the draw. -/
theorem handler_deterministic {α σ1 σ2 : Type} (event : α) (r : ℚ)
    (w1 : σ1) (w2 : σ2) :
    (handlerWorld event r w1).1 = (handlerWorld event r w2).1 ∧
    List.lookup "statusCode" (handlerWorld event r w1).1 =
      some (JsValue.num 200) :=
  ⟨rfl, rfl⟩

end LambdaRandom
